import Mathlib

/-!
# PhysX.Net: the managed facade over the native physics SDK

A shallow embedding of `Physics.cpp` (PhysX.Net-3.3) and `PhysicsEnum.h` (PhysX.Net-3.1).

* Native pointers are natural numbers, `NULL` is `0`.
* The native SDK is an external collaborator: what its functions return is read from an
  environment `Env`; every native call, raised event and wrapper construction is appended to a
  trace kept in the `World`, next to the static flag `_instantiated` and the object table.
* A method that can throw returns a `Result`: either a value or a managed exception, in both
  cases together with the world as the method left it.
-/

namespace PhysX

/-- A native pointer. -/
abbrev Ptr := Nat

/-- The native null pointer. -/
abbrev NULL : Ptr := 0

/-- The identity of a managed object. -/
abbrev ObjId := Nat

/-- The managed classes that occur in `Physics.cpp`; `Other n` stands for any further class
(a generic argument `T` of `CreateJoint<T>` may be any subclass of `Joint`). -/
inductive WrapperClass where
  | Physics | Scene | Material | HeightField | TriangleMesh | ConvexMesh
  | RigidActor | RigidDynamic | RigidStatic
  | Joint | D6Joint | DistanceJoint | FixedJoint | PrismaticJoint | RevoluteJoint | SphericalJoint
  | ParticleSystem | ParticleFluid | Cooking | Collection | Cloth | ClothFabric
  | Articulation | Aggregate | VehicleSDK | ConnectionManager
  | Other (n : Nat)
  deriving DecidableEq, Repr

/-- The managed exceptions thrown in `Physics.cpp`. `RuntimeFileCheckException` is whatever
`RuntimeFileChecks::Check` throws; `OverflowException`, `OutOfMemoryException` and
`IndexOutOfRangeException` are the runtime's own (array allocation with a negative length, array
allocation beyond the longest array the runtime supports, indexing past the end of an array). -/
inductive Exn where
  | Exception
  | ArgumentNullException
  | ArgumentException
  | InvalidOperationException
  | PhysicsAlreadyInstantiatedException
  | SceneCreationException
  | FailedToCreateObjectException
  | NotImplementedException
  | NullReferenceException
  | InvalidCastException
  | OverflowException
  | OutOfMemoryException
  | IndexOutOfRangeException
  | RuntimeFileCheckException
  deriving DecidableEq, Repr

/-- In the managed class hierarchy `ArgumentNullException` derives from `ArgumentException`. -/
def Exn.isArgumentException : Exn → Bool
  | .ArgumentNullException => true
  | .ArgumentException => true
  | _ => false

/-- The native functions called from `Physics.cpp`. -/
inductive NativeFn where
  | PxCreatePhysics | PxInitExtensions | PxCloseExtensions | release
  | getPvdConnectionManager | getNbMaterials | getMaterials
  | createScene | createMaterial | createHeightField | createTriangleMesh | createConvexMesh
  | createRigidDynamic | createRigidStatic
  | PxD6JointCreate | PxDistanceJointCreate | PxFixedJointCreate
  | PxPrismaticJointCreate | PxRevoluteJointCreate | PxSphericalJointCreate
  | createParticleSystem | createParticleFluid
  | getTolerancesScale | getFoundation | PxCreateCooking
  | createCollection | createCloth | createClothFabricFromStream | createClothFabricFromDesc
  | createArticulation | createAggregate
  deriving DecidableEq, Repr

/-- A child wrapper object: its class, the native pointer it holds and its owner. -/
structure Wrapper where
  cls : WrapperClass
  ptr : Ptr
  owner : ObjId
  deriving DecidableEq, Repr

/-- A managed object held by the object table: a `Physics` (by identity) or a child wrapper. -/
inductive ManagedObject where
  | physics (self : ObjId)
  | wrapper (w : Wrapper)
  deriving DecidableEq, Repr

/-- The class of a managed object. -/
def ManagedObject.cls : ManagedObject → WrapperClass
  | .physics _ => .Physics
  | .wrapper w => w.cls

/-- One row of the object table: native pointer, managed object, owner. -/
structure Entry where
  key : Ptr
  obj : ManagedObject
  owner : ObjId
  deriving DecidableEq, Repr

/-- The events raised by a `Physics`. -/
inductive ManagedEvent where
  | OnDisposing | OnDisposed
  deriving DecidableEq, Repr

/-- What is observable from outside a method, in the order it happens. -/
inductive Event where
  | native (fn : NativeFn) (args : List Ptr)
  | raise (self : ObjId) (e : ManagedEvent)
  | objectTableAdd (e : Entry)
  | construct (cls : WrapperClass) (ptr : Ptr) (owner : ObjId)
  | streamRead (count : Int)
  deriving DecidableEq, Repr

/-- The process-wide state: the static flag of `Physics`, the object table, the trace. -/
structure World where
  _instantiated : Bool
  table : List Entry
  trace : List Event
  deriving DecidableEq, Repr

/-- The outcome of a method: a value or a thrown exception, with the world left behind. -/
inductive Result (α : Type) where
  | ok (value : α) (world : World)
  | thrown (e : Exn) (world : World)
  deriving DecidableEq, Repr

/-- The world a method leaves behind. -/
def Result.world {α : Type} : Result α → World
  | .ok _ w => w
  | .thrown _ w => w

/-- The exception a method threw, if it threw. -/
def Result.exn? {α : Type} : Result α → Option Exn
  | .ok _ _ => none
  | .thrown e _ => some e

/-- The value a method returned, if it returned. -/
def Result.value? {α : Type} : Result α → Option α
  | .ok a _ => some a
  | .thrown _ _ => none

/-- The external collaborators of `Physics.cpp`: what each native function returns (a pointer;
`NULL` is failure), whether `PxInitExtensions` succeeds, the materials the native physics object
already holds, and whether `RuntimeFileChecks::Check` finds the runtime files. -/
structure Env where
  ret : NativeFn → Ptr
  initExtensionsOk : Bool
  materials : List Ptr
  runtimeFilesPresent : Bool

/-- The native calls of a trace, in order. -/
def nativeCalls (tr : List Event) : List NativeFn :=
  tr.filterMap fun
    | .native fn _ => some fn
    | _ => none

/-- The wrapper constructions of a trace, in order. -/
def constructions (tr : List Event) : List (WrapperClass × Ptr × ObjId) :=
  tr.filterMap fun
    | .construct c p o => some (c, p, o)
    | _ => none

/-- A native call is recorded in the trace. -/
def recordNative (fn : NativeFn) (args : List Ptr) (w : World) : World :=
  { w with trace := w.trace ++ [Event.native fn args] }

/-- Calling a native function on pointer arguments: the call is recorded, the result comes from
the environment. -/
def callNativeWith (env : Env) (fn : NativeFn) (args : List Ptr) (w : World) : Ptr × World :=
  (env.ret fn, recordNative fn args w)

/-- Calling a native function whose arguments are plain values. -/
def callNative (env : Env) (fn : NativeFn) (w : World) : Ptr × World :=
  callNativeWith env fn [] w

/-! ## Object table (`ObjectTable`, not part of the sources at hand) -/

/-- Modelled from the spec: `ObjectTable::Add` is not in src/. The spec describes the table as
"a process-wide mapping from native pointer to wrapper instance (and its owner)"; adding records
the row (native pointer, object, owner). -/
def ObjectTable.Add (key : Ptr) (obj : ManagedObject) (owner : ObjId) (w : World) : World :=
  let e : Entry := { key := key, obj := obj, owner := owner }
  { w with table := w.table ++ [e], trace := w.trace ++ [Event.objectTableAdd e] }

/-- Subclass relation between the managed classes, as far as `Physics.cpp` shows it:
the six concrete joints are assigned to a `Joint^`, the two rigid bodies are rigid actors. -/
def WrapperClass.isA (c t : WrapperClass) : Bool :=
  c == t ||
  (t == .Joint &&
    (c == .D6Joint || c == .DistanceJoint || c == .FixedJoint ||
     c == .PrismaticJoint || c == .RevoluteJoint || c == .SphericalJoint)) ||
  (t == .RigidActor && (c == .RigidDynamic || c == .RigidStatic))

/-- Modelled from the spec: `ObjectTable::GetObjectsOfOwnerAndType<T>` is not in src/; by its
name and the spec ("owner-based enumeration") it yields the objects of class `T` in the table
whose owner is the given object. -/
def ObjectTable.GetObjectsOfOwnerAndType (t : WrapperClass) (owner : ObjId) (w : World) :
    List ManagedObject :=
  (w.table.filter fun e => e.owner == owner && e.obj.cls.isA t).map Entry.obj

/-- Modelled from the spec: `ObjectTable::GetObjectsOfType<T>` is not in src/; by its name it
yields every object of class `T` in the table, whoever owns it. -/
def ObjectTable.GetObjectsOfType (t : WrapperClass) (w : World) : List ManagedObject :=
  (w.table.filter fun e => e.obj.cls.isA t).map Entry.obj

/-- Modelled from the spec: the wrapper constructors (`gcnew Scene(s, this)` and the like) are
not in src/. The spec calls a wrapper "a managed-runtime object holding a non-owning reference to
a native SDK object" and has the object table map the native pointer to the wrapper and its
owner: constructing a wrapper records the construction and adds the row to the table. -/
def gcnew (cls : WrapperClass) (ptr : Ptr) (owner : ObjId) (w : World) : Wrapper × World :=
  let obj : Wrapper := { cls := cls, ptr := ptr, owner := owner }
  (obj, ObjectTable.Add ptr (.wrapper obj) owner
          { w with trace := w.trace ++ [Event.construct cls ptr owner] })

/-! ## Foundation and Physics -/

/-- A managed `Foundation`: identity, native pointer, disposed or not. -/
structure Foundation where
  self : ObjId
  UnmanagedPointer : Ptr
  Disposed : Bool
  deriving DecidableEq, Repr

/-- The fields of a managed `Physics` object. -/
structure Physics where
  self : ObjId
  _physics : Ptr
  _foundation : Foundation
  _vehicleSDK : Option Wrapper
  _connectionManager : Option Wrapper
  deriving DecidableEq, Repr

/-- `Physics::Disposed::get`: `return (_physics == NULL);`. -/
def Physics.Disposed (this : Physics) : Bool := this._physics == NULL

/-- `Physics::Instantiated::get`: `return _instantiated;`. -/
def Physics.Instantiated (w : World) : Bool := w._instantiated

/-- `Physics::UnmanagedPointer::get`. -/
def Physics.UnmanagedPointer (this : Physics) : Ptr := this._physics

/-- `Physics::Init`. -/
def Physics.Init (w : World) : Result Unit :=
  if w._instantiated then
    .thrown .PhysicsAlreadyInstantiatedException w
  else
    .ok () { w with _instantiated := true }

/-- The loop at the end of `Physics::PostInit`:
`for (i = 0; i < getNbMaterials(); i++) gcnew Material(materials[i], this);`
over the materials still to visit. -/
def Physics.populateMaterials (self : ObjId) (env : Env) : List Ptr → World → World
  | [], w => (callNative env .getNbMaterials w).2
  | m :: rest, w =>
    let w1 := (callNative env .getNbMaterials w).2
    let w2 := (gcnew .Material m self w1).2
    Physics.populateMaterials self env rest w2

/-- `Physics::PostInit`. `ThrowIfNullOrDisposed` (a macro that is not in src/) throws for a null
owner and for a disposed one. -/
def Physics.PostInit (this : Physics) (owner : Option Foundation) (env : Env) (w : World) :
    Result Physics :=
  match owner with
  | none => .thrown .ArgumentNullException w
  | some o =>
    if o.Disposed then .thrown .ArgumentException w
    else
      let w1 := ObjectTable.Add this._physics (.physics this.self) o.self w
      let w2 := (callNative env .PxInitExtensions w1).2
      if !env.initExtensionsOk then .thrown .InvalidOperationException w2
      else
        -- Vehicle SDK: `gcnew VehicleSDK(this)` takes no native pointer
        let w3 := { w2 with trace := w2.trace ++ [Event.construct .VehicleSDK NULL this.self] }
        let vehicleSDK : Wrapper := { cls := .VehicleSDK, ptr := NULL, owner := this.self }
        -- PVD
        let (connectionManager, w4) := callNative env .getPvdConnectionManager w3
        let (cm, w5) :=
          if connectionManager != NULL then
            let r := gcnew .ConnectionManager connectionManager this.self w4
            (some r.1, r.2)
          else (none, w4)
        -- materials that exist in the physics object already
        let w6 := (callNative env .getNbMaterials w5).2
        let w7 := (callNative env .getNbMaterials w6).2
        let w8 := (callNative env .getMaterials w7).2
        let w9 := Physics.populateMaterials this.self env env.materials w8
        .ok { this with _vehicleSDK := some vehicleSDK, _connectionManager := cm } w9

/-- The constructor `Physics::Physics(Foundation^ foundation, bool checkRuntimeFiles)`;
`self` is the identity of the object under construction. -/
def Physics.ctor (self : ObjId) (foundation : Option Foundation) (checkRuntimeFiles : Bool)
    (env : Env) (w : World) : Result Physics :=
  match foundation with
  | none => .thrown .ArgumentNullException w
  | some f =>
    if checkRuntimeFiles && !env.runtimeFilesPresent then
      .thrown .RuntimeFileCheckException w
    else
      let this : Physics :=
        { self := self, _physics := NULL, _foundation := f,
          _vehicleSDK := none, _connectionManager := none }
      match Physics.Init w with
      | .thrown e w1 => .thrown e w1
      | .ok _ w1 =>
        let (p, w2) := callNative env .PxCreatePhysics w1
        let this := { this with _physics := p }
        if this._physics == NULL then .thrown .Exception w2
        else Physics.PostInit this (some f) env w2

/-- The finalizer `Physics::!Physics`, which the destructor `Physics::~Physics` calls. -/
def Physics.dispose (this : Physics) (w : World) : Physics × World :=
  let w1 := { w with trace := w.trace ++ [Event.raise this.self .OnDisposing] }
  if this.Disposed then (this, w1)
  else
    let w2 := recordNative .PxCloseExtensions [] w1
    let w3 := recordNative .release [this._physics] w2
    let this := { this with _physics := NULL }
    let w4 := { w3 with _instantiated := false }
    let w5 := { w4 with trace := w4.trace ++ [Event.raise this.self .OnDisposed] }
    (this, w5)

/-- Disposing the same object `n` times in a row. -/
def Physics.disposeN : Nat → Physics → World → Physics × World
  | 0, this, w => (this, w)
  | n + 1, this, w =>
    let r := Physics.dispose this w
    Physics.disposeN n r.1 r.2

/-! ## The `Create*` methods of `Physics`

Plain values that a method only converts and forwards to the native call (poses, friction
coefficients, particle counts) do not influence its control flow and are left out of the
argument lists; what decides a branch (null references, validity of a description, the stream)
is kept. -/

/-- A managed description object (`SceneDesc`, `HeightFieldDesc`, `ClothFabricDesc`): all that
`Physics.cpp` asks of it is whether it is valid. -/
structure Desc where
  isValid : Bool
  deriving DecidableEq, Repr

/-- A managed `System::IO::Stream`, as far as `Physics.cpp` looks at it. `Length` is a 64 bit
signed integer. -/
structure Stream where
  CanRead : Bool
  Length : Int
  deriving DecidableEq, Repr

/-- `ThrowIfDescriptionIsNullOrInvalid` (a macro that is not in src/): throws for a null
description and for an invalid one. -/
def ThrowIfDescriptionIsNullOrInvalid (desc : Option Desc) : Option Exn :=
  match desc with
  | none => some .ArgumentNullException
  | some d => if d.isValid then none else some .ArgumentException

/-- Modelled from the spec: `Util::StreamToUnmanagedInputStream` is not in src/; it copies the
managed stream into native memory, so it reads the whole stream. A null stream makes it throw. -/
def Util.StreamToUnmanagedInputStream (stream : Option Stream) (w : World) : Result Unit :=
  match stream with
  | none => .thrown .ArgumentNullException w
  | some s => .ok () { w with trace := w.trace ++ [Event.streamRead s.Length] }

/-- `Physics::CreateScene(SceneDesc^)`. -/
def Physics.CreateScene (this : Physics) (sceneDesc : Option Desc) (env : Env) (w : World) :
    Result Wrapper :=
  match ThrowIfDescriptionIsNullOrInvalid sceneDesc with
  | some e => .thrown e w
  | none =>
    let (s, w1) := callNative env .createScene w
    if s == NULL then .thrown .SceneCreationException w1
    else
      let r := gcnew .Scene s this.self w1
      .ok r.1 r.2

/-- `Physics::CreateScene()`: builds the default description (its constructor is not in src/, so
the description it yields is an argument) and forwards to `CreateScene(SceneDesc^)`. -/
def Physics.CreateSceneDefault (this : Physics) (defaultDesc : Desc) (env : Env) (w : World) :
    Result Wrapper :=
  Physics.CreateScene this (some defaultDesc) env w

/-- `Physics::CreateMaterial`. -/
def Physics.CreateMaterial (this : Physics) (env : Env) (w : World) : Result Wrapper :=
  let (m, w1) := callNative env .createMaterial w
  if m == NULL then .thrown .Exception w1
  else
    let r := gcnew .Material m this.self w1
    .ok r.1 r.2

/-- `Physics::CreateHeightField`. -/
def Physics.CreateHeightField (this : Physics) (desc : Option Desc) (env : Env) (w : World) :
    Result Wrapper :=
  match ThrowIfDescriptionIsNullOrInvalid desc with
  | some e => .thrown e w
  | none =>
    let (hf, w1) := callNative env .createHeightField w
    if hf == NULL then .thrown .FailedToCreateObjectException w1
    else
      let r := gcnew .HeightField hf this.self w1
      .ok r.1 r.2

/-- `Physics::CreateTriangleMesh`. -/
def Physics.CreateTriangleMesh (this : Physics) (stream : Option Stream) (env : Env)
    (w : World) : Result Wrapper :=
  match stream with
  | none => .thrown .ArgumentNullException w
  | some s =>
    match Util.StreamToUnmanagedInputStream (some s) w with
    | .thrown e w1 => .thrown e w1
    | .ok _ w1 =>
      let (triangleMesh, w2) := callNative env .createTriangleMesh w1
      if triangleMesh == NULL then .thrown .FailedToCreateObjectException w2
      else
        let r := gcnew .TriangleMesh triangleMesh this.self w2
        .ok r.1 r.2

/-- `Physics::CreateConvexMesh` (no null check of its own on the stream). -/
def Physics.CreateConvexMesh (this : Physics) (stream : Option Stream) (env : Env)
    (w : World) : Result Wrapper :=
  match Util.StreamToUnmanagedInputStream stream w with
  | .thrown e w1 => .thrown e w1
  | .ok _ w1 =>
    let (convexMesh, w2) := callNative env .createConvexMesh w1
    if convexMesh == NULL then .thrown .FailedToCreateObjectException w2
    else
      let r := gcnew .ConvexMesh convexMesh this.self w2
      .ok r.1 r.2

/-- `Physics::CreateRigidDynamic`. -/
def Physics.CreateRigidDynamic (this : Physics) (env : Env) (w : World) : Result Wrapper :=
  let (a, w1) := callNative env .createRigidDynamic w
  let r := gcnew .RigidDynamic a this.self w1
  .ok r.1 r.2

/-- `Physics::CreateRigidStatic`. -/
def Physics.CreateRigidStatic (this : Physics) (env : Env) (w : World) : Result Wrapper :=
  let (a, w1) := callNative env .createRigidStatic w
  let r := gcnew .RigidStatic a this.self w1
  .ok r.1 r.2

/-- `Physics::CreateParticleSystem(int, bool)`; the overload `CreateParticleSystem(int)` forwards
to it with `false`. -/
def Physics.CreateParticleSystem (this : Physics) (env : Env) (w : World) : Result Wrapper :=
  let (s, w1) := callNative env .createParticleSystem w
  if s == NULL then .thrown .FailedToCreateObjectException w1
  else
    let r := gcnew .ParticleSystem s this.self w1
    .ok r.1 r.2

/-- `Physics::CreateParticleFluid(int, bool)`; the overload `CreateParticleFluid(int)` forwards
to it with `false`. -/
def Physics.CreateParticleFluid (this : Physics) (env : Env) (w : World) : Result Wrapper :=
  let (particleFluid, w1) := callNative env .createParticleFluid w
  if particleFluid == NULL then .thrown .FailedToCreateObjectException w1
  else
    let r := gcnew .ParticleFluid particleFluid this.self w1
    .ok r.1 r.2

/-- `Physics::CreateCooking`: with null parameters the tolerances scale is read from the native
physics object; the wrapper is owned by the foundation. -/
def Physics.CreateCooking (this : Physics) (parameters : Option Desc) (env : Env) (w : World) :
    Result Wrapper :=
  let w1 := match parameters with
    | none => (callNative env .getTolerancesScale w).2
    | some _ => w
  let (f, w2) := callNative env .getFoundation w1
  let (cooking, w3) := callNativeWith env .PxCreateCooking [f] w2
  let r := gcnew .Cooking cooking this._foundation.self w3
  .ok r.1 r.2

/-- `Physics::CreateCollection`. -/
def Physics.CreateCollection (this : Physics) (env : Env) (w : World) : Result Wrapper :=
  let (collection, w1) := callNative env .createCollection w
  let r := gcnew .Collection collection this.self w1
  .ok r.1 r.2

/-- `Physics::CreateCloth`: `fabric->UnmanagedPointer` and `particles->Length` dereference their
arguments; `particles` is given by its length. -/
def Physics.CreateCloth (this : Physics) (fabric : Option Wrapper) (particles : Option Nat)
    (env : Env) (w : World) : Result Wrapper :=
  match fabric with
  | none => .thrown .NullReferenceException w
  | some fab =>
    match particles with
    | none => .thrown .NullReferenceException w
    | some _ =>
      let (cloth, w1) := callNativeWith env .createCloth [fab.ptr] w
      if cloth == NULL then .thrown .FailedToCreateObjectException w1
      else
        let r := gcnew .Cloth cloth this.self w1
        .ok r.1 r.2

/-- The C cast `(int)` of a 64 bit integer: the low 32 bits, read as a signed integer. -/
def toInt32 (x : Int) : Int := (x + 2 ^ 31) % 2 ^ 32 - 2 ^ 31

/-- The longest byte array the managed runtime allocates: 0x7FFFFFC7 elements. -/
def maxByteArrayLength : Int := 2147483591

/-- `Physics::CreateClothFabric(System::IO::Stream^)`. `gcnew array<Byte>(n)` throws
`OverflowException` for a negative `n` and `OutOfMemoryException` for an `n` above
`maxByteArrayLength`; `&cookedData[0]` throws `IndexOutOfRangeException` on an empty array. -/
def Physics.CreateClothFabricFromStream (this : Physics) (cookedStream : Option Stream)
    (env : Env) (w : World) : Result Wrapper :=
  match cookedStream with
  | none => .thrown .ArgumentNullException w
  | some s =>
    if !s.CanRead then .thrown .ArgumentNullException w
    else if s.Length == 0 then .thrown .ArgumentNullException w
    else
      let n := toInt32 s.Length
      -- Read the data from the stream
      if n < 0 then .thrown .OverflowException w
      else if n > maxByteArrayLength then .thrown .OutOfMemoryException w
      else
        let w1 := { w with trace := w.trace ++ [Event.streamRead n] }
        -- Get a pointer to the first byte
        if n == 0 then .thrown .IndexOutOfRangeException w1
        else
          -- Create the cloth fabric
          let (clothFabric, w2) := callNative env .createClothFabricFromStream w1
          if clothFabric == NULL then .thrown .FailedToCreateObjectException w2
          else
            -- Create a managed version of the cloth fabric
            let r := gcnew .ClothFabric clothFabric this.self w2
            .ok r.1 r.2

/-- `Physics::CreateClothFabric(ClothFabricDesc^)`. -/
def Physics.CreateClothFabricFromDesc (this : Physics) (desc : Option Desc) (env : Env)
    (w : World) : Result Wrapper :=
  match desc with
  | none => .thrown .ArgumentNullException w
  | some d =>
    if !d.isValid then .thrown .ArgumentException w
    else
      let (clothFabric, w1) := callNative env .createClothFabricFromDesc w
      let r := gcnew .ClothFabric clothFabric this.self w1
      .ok r.1 r.2

/-- `Physics::CreateArticulation`. -/
def Physics.CreateArticulation (this : Physics) (env : Env) (w : World) : Result Wrapper :=
  let (a, w1) := callNative env .createArticulation w
  let r := gcnew .Articulation a this.self w1
  .ok r.1 r.2

/-- `Physics::CreateAggregate`. -/
def Physics.CreateAggregate (this : Physics) (env : Env) (w : World) : Result Wrapper :=
  let (a, w1) := callNative env .createAggregate w
  let r := gcnew .Aggregate a this.self w1
  .ok r.1 r.2

/-! ## Joints -/

/-- The managed enum `JointType` (its declaration is not in src/): the six enumerators that
`Physics::CreateJoint` names, and `other raw` for every further value an enum variable can
hold. -/
inductive JointType where
  | D6 | Distance | Fixed | Prismatic | Revolute | Spherical
  | other (raw : Int)
  deriving DecidableEq, Repr

/-- The macro `GetPointerOrNull`: the native pointer of a wrapper, `NULL` for a null reference. -/
def GetPointerOrNull (actor : Option Wrapper) : Ptr :=
  match actor with
  | none => NULL
  | some a => a.ptr

/-- `Physics::CreateJoint(JointType, RigidActor^, Matrix, RigidActor^, Matrix)`. -/
def Physics.CreateJoint (this : Physics) (type : JointType) (actor0 actor1 : Option Wrapper)
    (env : Env) (w : World) : Result Wrapper :=
  let physics := this.UnmanagedPointer
  let a0 := GetPointerOrNull actor0
  let a1 := GetPointerOrNull actor1
  let joint : Option (Wrapper × World) :=
    match type with
    | .D6 =>
      let (d6, w1) := callNativeWith env .PxD6JointCreate [physics, a0, a1] w
      some (gcnew .D6Joint d6 this.self w1)
    | .Distance =>
      let (distance, w1) := callNativeWith env .PxDistanceJointCreate [physics, a0, a1] w
      some (gcnew .DistanceJoint distance this.self w1)
    | .Fixed =>
      let (fixed, w1) := callNativeWith env .PxFixedJointCreate [physics, a0, a1] w
      some (gcnew .FixedJoint fixed this.self w1)
    | .Prismatic =>
      let (primatic, w1) := callNativeWith env .PxPrismaticJointCreate [physics, a0, a1] w
      some (gcnew .PrismaticJoint primatic this.self w1)
    | .Revolute =>
      let (revolute, w1) := callNativeWith env .PxRevoluteJointCreate [physics, a0, a1] w
      some (gcnew .RevoluteJoint revolute this.self w1)
    | .Spherical =>
      let (spherical, w1) := callNativeWith env .PxSphericalJointCreate [physics, a0, a1] w
      some (gcnew .SphericalJoint spherical this.self w1)
    | .other _ => none
  match joint with
  | none => .thrown .ArgumentException w
  | some r => .ok r.1 r.2

/-- The cast `(T)` of a managed reference: it succeeds when the object is of class `T` or of a
subclass, and throws `InvalidCastException` otherwise. -/
def castTo (T : WrapperClass) (r : Result Wrapper) : Result Wrapper :=
  match r with
  | .thrown e w => .thrown e w
  | .ok j w => if j.cls.isA T then .ok j w else .thrown .InvalidCastException w

/-- The generic `Physics::CreateJoint<T>(RigidActor^, Matrix, RigidActor^, Matrix)`. -/
def Physics.CreateJointGeneric (this : Physics) (T : WrapperClass)
    (actor0 actor1 : Option Wrapper) (env : Env) (w : World) : Result Wrapper :=
  let type : Option JointType :=
    if T == .D6Joint then some .D6
    else if T == .DistanceJoint then some .Distance
    else if T == .FixedJoint then some .Fixed
    else if T == .PrismaticJoint then some .Prismatic
    else if T == .RevoluteJoint then some .Revolute
    else if T == .SphericalJoint then some .Spherical
    else none
  match type with
  | none => .thrown .ArgumentException w
  | some type => castTo T (Physics.CreateJoint this type actor0 actor1 env w)

/-- The map from a joint class to its `JointType`, as the specification words it
("typeOf maps the class to its JointType"); every other class has none. -/
def typeOf : WrapperClass → Option JointType
  | .D6Joint => some .D6
  | .DistanceJoint => some .Distance
  | .FixedJoint => some .Fixed
  | .PrismaticJoint => some .Prismatic
  | .RevoluteJoint => some .Revolute
  | .SphericalJoint => some .Spherical
  | _ => none

/-- The native creation function and the wrapper class that the specification pairs with each
of the six joint types. -/
def matchingJoint : JointType → Option (NativeFn × WrapperClass)
  | .D6 => some (.PxD6JointCreate, .D6Joint)
  | .Distance => some (.PxDistanceJointCreate, .DistanceJoint)
  | .Fixed => some (.PxFixedJointCreate, .FixedJoint)
  | .Prismatic => some (.PxPrismaticJointCreate, .PrismaticJoint)
  | .Revolute => some (.PxRevoluteJointCreate, .RevoluteJoint)
  | .Spherical => some (.PxSphericalJointCreate, .SphericalJoint)
  | .other _ => none

/-! ## Enumeration properties of `Physics` -/

/-- `Physics::Scenes::get`. -/
def Physics.Scenes (this : Physics) (w : World) : List ManagedObject :=
  ObjectTable.GetObjectsOfOwnerAndType .Scene this.self w

/-- `Physics::Materials::get`. -/
def Physics.Materials (this : Physics) (w : World) : List ManagedObject :=
  ObjectTable.GetObjectsOfOwnerAndType .Material this.self w

/-- `Physics::RigidActors::get`. -/
def Physics.RigidActors (this : Physics) (w : World) : List ManagedObject :=
  ObjectTable.GetObjectsOfOwnerAndType .RigidActor this.self w

/-- `Physics::ParticleSystems::get`. -/
def Physics.ParticleSystems (this : Physics) (w : World) : List ManagedObject :=
  ObjectTable.GetObjectsOfOwnerAndType .ParticleSystem this.self w

/-- `Physics::ParticleFluids::get`: `return ObjectTable::GetObjectsOfType<ParticleFluid^>();`
(`this` is not passed on). -/
def Physics.ParticleFluids (_this : Physics) (w : World) : List ManagedObject :=
  ObjectTable.GetObjectsOfType .ParticleFluid w

/-- `Physics::Cloths::get`. -/
def Physics.Cloths (this : Physics) (w : World) : List ManagedObject :=
  ObjectTable.GetObjectsOfOwnerAndType .Cloth this.self w

/-- `Physics::ClothFabrics::get`. -/
def Physics.ClothFabrics (this : Physics) (w : World) : List ManagedObject :=
  ObjectTable.GetObjectsOfOwnerAndType .ClothFabric this.self w

/-- The rows of the object table that hold an object of class `t` owned by `owner`: what the
specification says an enumeration property returns. -/
def ownedOfType (t : WrapperClass) (owner : ObjId) (w : World) : List Entry :=
  w.table.filter fun e => e.obj.cls.isA t && e.owner == owner

/-! ## `PhysicsEnum.h`: managed mirrors of native enums -/

/-- The enumerators of the native `PxCombineMode` that `PhysicsEnum.h` refers to. -/
inductive PxCombineMode where
  | eAVERAGE | eMIN | eMULTIPLY | eMAX
  deriving DecidableEq, Repr

/-- The enumerators of the native `PxDataAccessFlag` that `PhysicsEnum.h` refers to. -/
inductive PxDataAccessFlag where
  | eREADABLE | eWRITABLE
  deriving DecidableEq, Repr

/-- The enumerators of the native `PxErrorCode` that `PhysicsEnum.h` refers to. -/
inductive PxErrorCode where
  | eNO_ERROR | eDEBUG_INFO | eDEBUG_WARNING | eINVALID_PARAMETER | eINVALID_OPERATION
  | eOUT_OF_MEMORY | eINTERNAL_ERROR
  deriving DecidableEq, Repr

/-- The enumerators of the native `PxPairFlag` that `PhysicsEnum.h` refers to. -/
inductive PxPairFlag where
  | eRESOLVE_CONTACTS | eMODIFY_CONTACTS | eNOTIFY_TOUCH_FOUND | eNOTIFY_TOUCH_PERSISTS
  | eNOTIFY_TOUCH_LOST | eNOTIFY_THRESHOLD_FORCE_FOUND | eNOTIFY_THRESHOLD_FORCE_PERSISTS
  | eNOTIFY_THRESHOLD_FORCE_LOST | eNOTIFY_CONTACT_POINTS | eNOTIFY_CONTACT_FORCES
  | eNOTIFY_CONTACT_FORCE_PER_POINT | eNOTIFY_CONTACT_FEATURE_INDICES_PER_POINT
  | eSWEPT_CONTACT_GENERATION | eSWEPT_INTEGRATION_LINEAR | eSWEPT_INTEGRATION_FULL
  | eCONTACT_DEFAULT | eTRIGGER_DEFAULT
  deriving DecidableEq, Repr

/-- The numeric values of the native enumerators. They are fixed by the headers of the native
SDK (`PxMaterial.h`, `PxLockedData.h`, `PxErrors.h`, `PxFiltering.h`), which are not part of this
repository. -/
structure NativeEnumValues where
  combineMode : PxCombineMode → Int
  dataAccessFlag : PxDataAccessFlag → Int
  errorCode : PxErrorCode → Int
  pairFlag : PxPairFlag → Int

/-- A value that a 32 bit signed integer can hold. -/
def InInt32 (x : Int) : Prop := -(2 ^ 31) ≤ x ∧ x < 2 ^ 31

instance (x : Int) : Decidable (InInt32 x) := by
  unfold InInt32
  infer_instance

/-- The native enumerators are constants of C++ enums, whose underlying type is `int`. -/
def NativeEnumValues.WellFormed (nv : NativeEnumValues) : Prop :=
  (∀ n, InInt32 (nv.combineMode n)) ∧ (∀ n, InInt32 (nv.dataAccessFlag n)) ∧
  (∀ n, InInt32 (nv.errorCode n)) ∧ (∀ n, InInt32 (nv.pairFlag n))

/-- `public enum class CombineMode`. -/
inductive CombineMode where
  | Average | Minimum | Multiply | Max
  deriving DecidableEq, Repr

/-- `public enum class DataAccessFlag`. -/
inductive DataAccessFlag where
  | Readable | Writable
  deriving DecidableEq, Repr

/-- `public enum ErrorCode`. -/
inductive ErrorCode where
  | NoError | DebugInfo | Warning | InvalidParameter | InvalidOperation | OutOfMemory
  | InternalError
  deriving DecidableEq, Repr

/-- `public enum class PairFlag`. -/
inductive PairFlag where
  | ResolveContacts | ModifyContacts | NotifyTouchFound | NotifyTouchPersists | NotifyTouchLost
  | NotifyThresholdForceFound | NotifyThresholdForcePersists | NotifyThresholdForceLost
  | NotifyContactPoints | NotifyContactForces | NotifyContactForcePerPoint
  | NotifyContactFeatureIndicesPerPoint | SweptContactGeneration | SweptIntegrationLinear
  | SweptIntegrationFull | ContactDefault | TriggerDefault
  deriving DecidableEq, Repr

/-- The native enumerator each `CombineMode` enumerator is initialised with. -/
def CombineMode.definedFrom : CombineMode → PxCombineMode
  | .Average => .eAVERAGE
  | .Minimum => .eMIN
  | .Multiply => .eMULTIPLY
  | .Max => .eMAX

/-- The native enumerator each `DataAccessFlag` enumerator is initialised with. -/
def DataAccessFlag.definedFrom : DataAccessFlag → PxDataAccessFlag
  | .Readable => .eREADABLE
  | .Writable => .eWRITABLE

/-- The native enumerator each `ErrorCode` enumerator is initialised with. -/
def ErrorCode.definedFrom : ErrorCode → PxErrorCode
  | .NoError => .eNO_ERROR
  | .DebugInfo => .eDEBUG_INFO
  | .Warning => .eDEBUG_WARNING
  | .InvalidParameter => .eINVALID_PARAMETER
  | .InvalidOperation => .eINVALID_OPERATION
  | .OutOfMemory => .eOUT_OF_MEMORY
  | .InternalError => .eINTERNAL_ERROR

/-- The native enumerator each `PairFlag` enumerator is initialised with. -/
def PairFlag.definedFrom : PairFlag → PxPairFlag
  | .ResolveContacts => .eRESOLVE_CONTACTS
  | .ModifyContacts => .eMODIFY_CONTACTS
  | .NotifyTouchFound => .eNOTIFY_TOUCH_FOUND
  | .NotifyTouchPersists => .eNOTIFY_TOUCH_PERSISTS
  | .NotifyTouchLost => .eNOTIFY_TOUCH_LOST
  | .NotifyThresholdForceFound => .eNOTIFY_THRESHOLD_FORCE_FOUND
  | .NotifyThresholdForcePersists => .eNOTIFY_THRESHOLD_FORCE_PERSISTS
  | .NotifyThresholdForceLost => .eNOTIFY_THRESHOLD_FORCE_LOST
  | .NotifyContactPoints => .eNOTIFY_CONTACT_POINTS
  | .NotifyContactForces => .eNOTIFY_CONTACT_FORCES
  | .NotifyContactForcePerPoint => .eNOTIFY_CONTACT_FORCE_PER_POINT
  | .NotifyContactFeatureIndicesPerPoint => .eNOTIFY_CONTACT_FEATURE_INDICES_PER_POINT
  | .SweptContactGeneration => .eSWEPT_CONTACT_GENERATION
  | .SweptIntegrationLinear => .eSWEPT_INTEGRATION_LINEAR
  | .SweptIntegrationFull => .eSWEPT_INTEGRATION_FULL
  | .ContactDefault => .eCONTACT_DEFAULT
  | .TriggerDefault => .eTRIGGER_DEFAULT

/-- The numeric value of a `CombineMode` enumerator: its initialiser, converted to the
underlying type `int` of the managed enum. -/
def CombineMode.value (nv : NativeEnumValues) (e : CombineMode) : Int :=
  toInt32 (nv.combineMode e.definedFrom)

/-- The numeric value of a `DataAccessFlag` enumerator. -/
def DataAccessFlag.value (nv : NativeEnumValues) (e : DataAccessFlag) : Int :=
  toInt32 (nv.dataAccessFlag e.definedFrom)

/-- The numeric value of an `ErrorCode` enumerator. -/
def ErrorCode.value (nv : NativeEnumValues) (e : ErrorCode) : Int :=
  toInt32 (nv.errorCode e.definedFrom)

/-- The numeric value of a `PairFlag` enumerator. -/
def PairFlag.value (nv : NativeEnumValues) (e : PairFlag) : Int :=
  toInt32 (nv.pairFlag e.definedFrom)

/-- A cast of a managed enum value to the native enum type: both have the underlying type
`int`, the cast keeps the 32 bits. -/
def castToNativeEnum (v : Int) : Int := toInt32 v

/-- A cast of a native enum value to the managed enum type. -/
def castToManagedEnum (n : Int) : Int := toInt32 n

/-! ## Concrete inputs used to evaluate the definitions -/

/-- A world in which nothing has happened yet. -/
def emptyWorld : World := { _instantiated := false, table := [], trace := [] }

/-- A world in which a `Physics` is already instantiated. -/
def instantiatedWorld : World := { _instantiated := true, table := [], trace := [] }

/-- A live foundation. -/
def sampleFoundation : Foundation := { self := 100, UnmanagedPointer := 5000, Disposed := false }

/-- A native SDK in which every call succeeds and every function returns a pointer of its own;
the physics object holds two materials. -/
def sampleEnv : Env :=
  { ret := fun fn => 4096 + 256 * fn.toCtorIdx, initExtensionsOk := true,
    materials := [4200, 4201], runtimeFilesPresent := true }

/-- A machine on which the runtime files of the native SDK are missing. -/
def missingFilesEnv : Env :=
  { ret := fun _ => 4096, initExtensionsOk := true, materials := [],
    runtimeFilesPresent := false }

/-- A constructed `Physics` with identity 1 on native pointer 4096. -/
def samplePhysics : Physics :=
  { self := 1, _physics := 4096, _foundation := sampleFoundation,
    _vehicleSDK := none, _connectionManager := none }

/-- A readable stream of 64 bytes. -/
def sampleStream : Stream := { CanRead := true, Length := 64 }

/-- A readable stream of 2^31 bytes. -/
def hugeStream : Stream := { CanRead := true, Length := 2147483648 }

/-- A readable stream of 2^31 - 1 bytes: its length fits an `int`, but not a byte array. -/
def maxIntStream : Stream := { CanRead := true, Length := 2147483647 }

/-- A world whose object table holds one `ParticleFluid` wrapper, owned by the object with
identity 2. -/
def foreignFluidWorld : World :=
  { _instantiated := true,
    table := [{ key := 7000,
                obj := .wrapper { cls := .ParticleFluid, ptr := 7000, owner := 2 },
                owner := 2 }],
    trace := [] }

/-- A sample table of native enumerator values: combine modes counted from 0, flags and error
codes as successive bits. -/
def sampleNativeEnumValues : NativeEnumValues :=
  { combineMode := fun n => n.toCtorIdx,
    dataAccessFlag := fun n => 2 ^ n.toCtorIdx,
    errorCode := fun n => 2 ^ n.toCtorIdx / 2,
    pairFlag := fun n => 2 ^ n.toCtorIdx }

/-- The object and the world that the constructor yields on the sample input. -/
def constructed : Physics × World :=
  match Physics.ctor 1 (some sampleFoundation) false sampleEnv emptyWorld with
  | .ok p w => (p, w)
  | .thrown _ w => (samplePhysics, w)


/-! # Theorems

## Instantiation guard -/

/-- Claim C2, as the code has it: `Physics::Init` throws `PhysicsAlreadyInstantiatedException`
exactly when `_instantiated` is true on entry, it throws nothing else, it leaves the world as it
was when it throws, and it leaves the flag true when it returns. The constructor, given a
non-null foundation while `Instantiated` is true, throws `PhysicsAlreadyInstantiatedException`
and leaves the world (trace of native calls included) untouched, provided that
`checkRuntimeFiles` is false or `RuntimeFileChecks::Check` returns normally. -/
theorem init_guard_and_ctor_when_instantiated (self : ObjId) (f : Foundation)
    (checkRuntimeFiles : Bool) (env : Env) (w : World) :
    ((Physics.Init w).exn? = some .PhysicsAlreadyInstantiatedException ↔
        w._instantiated = true) ∧
    ((Physics.Init w).exn? = none ↔ w._instantiated = false) ∧
    ((Physics.Init w).exn? ≠ none → (Physics.Init w).world = w) ∧
    ((Physics.Init w).exn? = none → (Physics.Init w).world._instantiated = true) ∧
    (Physics.Instantiated w = true →
      (checkRuntimeFiles = false ∨ env.runtimeFilesPresent = true) →
      Physics.ctor self (some f) checkRuntimeFiles env w =
        .thrown .PhysicsAlreadyInstantiatedException w) := by
  refine ⟨?_, ?_, ?_, ?_, ?_⟩
  · cases h : w._instantiated <;> simp [Physics.Init, Result.exn?, h]
  · cases h : w._instantiated <;> simp [Physics.Init, Result.exn?, h]
  · cases h : w._instantiated <;> simp [Physics.Init, Result.exn?, Result.world, h]
  · cases h : w._instantiated <;> simp [Physics.Init, Result.exn?, Result.world, h]
  · intro hi hc
    have hi2 : w._instantiated = true := hi
    rcases hc with hc | hc <;> simp [Physics.ctor, Physics.Init, hi2, hc]

/-- The constructor at a concrete input: a non-null foundation, no runtime file check, a
`Physics` already instantiated. -/
theorem init_guard_and_ctor_when_instantiated_witness :
    Physics.Instantiated instantiatedWorld = true ∧
    Physics.ctor 1 (some sampleFoundation) false sampleEnv instantiatedWorld =
      .thrown .PhysicsAlreadyInstantiatedException instantiatedWorld :=
  ⟨rfl, (init_guard_and_ctor_when_instantiated 1 sampleFoundation false sampleEnv
    instantiatedWorld).2.2.2.2 rfl (Or.inl rfl)⟩

/-- Claim C2 as stated fails: with a non-null foundation and `Instantiated` true, a constructor
call that asks for the runtime file check on a machine where the files are missing throws the
exception of `RuntimeFileChecks::Check`, not `PhysicsAlreadyInstantiatedException`. -/
theorem ctor_runtime_check_precedes_init_guard :
    Physics.Instantiated instantiatedWorld = true ∧
    (Physics.ctor 1 (some sampleFoundation) true missingFilesEnv instantiatedWorld).exn? =
      some .RuntimeFileCheckException ∧
    (Physics.ctor 1 (some sampleFoundation) true missingFilesEnv instantiatedWorld).exn? ≠
      some .PhysicsAlreadyInstantiatedException := by
  refine ⟨rfl, rfl, ?_⟩
  decide


/-! ## Disposal -/

theorem nativeCalls_append (a b : List Event) :
    nativeCalls (a ++ b) = nativeCalls a ++ nativeCalls b := by
  simp [nativeCalls, List.filterMap_append]

theorem constructions_append (a b : List Event) :
    constructions (a ++ b) = constructions a ++ constructions b := by
  simp [constructions, List.filterMap_append]

/-- What `PostInit` returns is the object it was given, up to the two wrapper fields. -/
theorem PostInit_ok_fields (this : Physics) (owner : Option Foundation) (env : Env)
    (w : World) (p : Physics) (w1 : World)
    (h : Physics.PostInit this owner env w = .ok p w1) :
    p._physics = this._physics ∧ p.self = this.self ∧ p._foundation = this._foundation := by
  unfold Physics.PostInit at h
  cases owner with
  | none => simp at h
  | some o =>
    simp only at h
    split at h
    · simp at h
    · split at h
      · simp at h
      · simp only [Result.ok.injEq] at h
        obtain ⟨hp, -⟩ := h
        subst hp
        exact ⟨rfl, rfl, rfl⟩

/-- A successfully constructed `Physics` holds the non-null pointer that `PxCreatePhysics`
returned, has the identity it was constructed under and remembers its foundation. -/
theorem ctor_ok_fields (self : ObjId) (foundation : Option Foundation)
    (checkRuntimeFiles : Bool) (env : Env) (w0 : World) (this : Physics) (w : World)
    (h : Physics.ctor self foundation checkRuntimeFiles env w0 = .ok this w) :
    this._physics = env.ret .PxCreatePhysics ∧ this._physics ≠ NULL ∧ this.self = self ∧
    foundation = some this._foundation ∧ w0._instantiated = false := by
  unfold Physics.ctor at h
  cases foundation with
  | none => simp at h
  | some f =>
    simp only at h
    split at h
    · simp at h
    · cases hi : w0._instantiated with
      | true => simp [Physics.Init, hi] at h
      | false =>
        by_cases hp : env.ret .PxCreatePhysics = NULL
        · simp [Physics.Init, hi, callNative, callNativeWith, hp] at h
        · simp only [Physics.Init, hi, callNative, callNativeWith, beq_iff_eq, hp,
            Bool.false_eq_true, if_false] at h
          have hf := PostInit_ok_fields _ _ _ _ _ _ h
          simp only at hf
          refine ⟨hf.1, ?_, hf.2.1, ?_, rfl⟩
          · rw [hf.1]
            exact hp
          · rw [hf.2.2]

/-- Disposing an object that is already disposed only raises `OnDisposing`. -/
theorem dispose_of_disposed (this : Physics) (w : World) (hd : this._physics = NULL) :
    Physics.dispose this w =
      (this, { w with trace := w.trace ++ [Event.raise this.self .OnDisposing] }) := by
  simp [Physics.dispose, Physics.Disposed, hd]

/-- Disposing a live object: the full release sequence, once. -/
theorem dispose_of_live (this : Physics) (w : World) (hd : this._physics ≠ NULL) :
    Physics.dispose this w =
      ({ this with _physics := NULL },
       { w with
         _instantiated := false
         trace := w.trace ++ [Event.raise this.self .OnDisposing] ++
           [Event.native .PxCloseExtensions []] ++ [Event.native .release [this._physics]] ++
           [Event.raise this.self .OnDisposed] }) := by
  simp [Physics.dispose, Physics.Disposed, hd, recordNative]

/-- Repeated disposal of a disposed object only appends `OnDisposing` events. -/
theorem disposeN_of_disposed (n : Nat) (this : Physics) (w : World)
    (hd : this._physics = NULL) :
    Physics.disposeN n this w =
      (this, { w with trace := w.trace ++
        List.replicate n (Event.raise this.self .OnDisposing) }) := by
  induction n generalizing w with
  | zero => simp [Physics.disposeN]
  | succ k ih =>
    simp only [Physics.disposeN, dispose_of_disposed this w hd, ih]
    simp [List.replicate_succ]


/-- Claim C3: disposing a successfully constructed `Physics` is idempotent on its state. After
the first dispose `Disposed` is true, the native pointer is `NULL` and `Instantiated` is false;
a further dispose, in whatever world it happens, leaves the object, `Instantiated` and the
native calls made so far as they are and raises no `OnDisposed`; and over `n + 1` disposes in a
row the native `release` and `PxCloseExtensions` are each called exactly once and `OnDisposed`
is raised exactly once. -/
theorem dispose_idempotent (self : ObjId) (foundation : Option Foundation)
    (checkRuntimeFiles : Bool) (env : Env) (w0 : World) (this : Physics) (w : World)
    (h : Physics.ctor self foundation checkRuntimeFiles env w0 = .ok this w) (n : Nat) :
    (Physics.dispose this w).1.Disposed = true ∧
    (Physics.dispose this w).1._physics = NULL ∧
    Physics.Instantiated (Physics.dispose this w).2 = false ∧
    (∀ w1 : World,
      (Physics.dispose (Physics.dispose this w).1 w1).1 = (Physics.dispose this w).1 ∧
      Physics.Instantiated (Physics.dispose (Physics.dispose this w).1 w1).2 =
        Physics.Instantiated w1 ∧
      nativeCalls (Physics.dispose (Physics.dispose this w).1 w1).2.trace =
        nativeCalls w1.trace ∧
      (Physics.dispose (Physics.dispose this w).1 w1).2.trace.count
          (Event.raise self .OnDisposed) =
        w1.trace.count (Event.raise self .OnDisposed)) ∧
    (Physics.disposeN (n + 1) this w).1 = (Physics.dispose this w).1 ∧
    Physics.Instantiated (Physics.disposeN (n + 1) this w).2 = false ∧
    (nativeCalls (Physics.disposeN (n + 1) this w).2.trace).count .release =
      (nativeCalls w.trace).count .release + 1 ∧
    (nativeCalls (Physics.disposeN (n + 1) this w).2.trace).count .PxCloseExtensions =
      (nativeCalls w.trace).count .PxCloseExtensions + 1 ∧
    (Physics.disposeN (n + 1) this w).2.trace.count (Event.raise self .OnDisposed) =
      w.trace.count (Event.raise self .OnDisposed) + 1 := by
  obtain ⟨-, hne, hself, -, -⟩ := ctor_ok_fields _ _ _ _ _ _ _ h
  have hrep : ∀ k : Nat, nativeCalls (List.replicate k (Event.raise self .OnDisposing)) = [] := by
    intro k
    induction k with
    | zero => rfl
    | succ k ih => simp [List.replicate_succ, nativeCalls]
  have hrep2 : ∀ k : Nat, (List.replicate k (Event.raise self .OnDisposing)).count
      (Event.raise self .OnDisposed) = 0 := by
    intro k
    rw [List.count_replicate]
    simp
  have hd := dispose_of_live this w hne
  have hnull : ({ this with _physics := NULL } : Physics)._physics = NULL := rfl
  refine ⟨?_, ?_, ?_, ?_, ?_, ?_, ?_, ?_, ?_⟩
  · rw [hd]; rfl
  · rw [hd]
  · rw [hd]; rfl
  · intro w1
    rw [hd]
    simp only
    rw [dispose_of_disposed _ w1 hnull]
    refine ⟨rfl, rfl, ?_, ?_⟩
    · simp [nativeCalls_append, nativeCalls]
    · simp [List.count_append, hself]
  · simp only [Physics.disposeN]
    rw [hd]
    simp only
    rw [disposeN_of_disposed _ _ _ hnull]
  · simp only [Physics.disposeN]
    rw [hd]
    simp only
    rw [disposeN_of_disposed _ _ _ hnull]
    rfl
  · simp only [Physics.disposeN]
    rw [hd]
    simp only
    rw [disposeN_of_disposed _ _ _ hnull]
    simp only [nativeCalls_append, hself, hrep]
    simp [nativeCalls, List.count_append]
  · simp only [Physics.disposeN]
    rw [hd]
    simp only
    rw [disposeN_of_disposed _ _ _ hnull]
    simp only [nativeCalls_append, hself, hrep]
    simp [nativeCalls, List.count_append]
  · simp only [Physics.disposeN]
    rw [hd]
    simp only
    rw [disposeN_of_disposed _ _ _ hnull]
    simp only [hself, List.count_append, hrep2]
    simp [List.count_cons]


/-- Three disposes in a row of the `Physics` constructed on the sample input. -/
theorem dispose_idempotent_witness :
    Physics.ctor 1 (some sampleFoundation) false sampleEnv emptyWorld =
      .ok constructed.1 constructed.2 ∧
    (Physics.disposeN 3 constructed.1 constructed.2).1 = (Physics.dispose constructed.1
      constructed.2).1 ∧
    Physics.Instantiated (Physics.disposeN 3 constructed.1 constructed.2).2 = false ∧
    (nativeCalls (Physics.disposeN 3 constructed.1 constructed.2).2.trace).count .release =
      (nativeCalls constructed.2.trace).count .release + 1 :=
  have h := dispose_idempotent 1 (some sampleFoundation) false sampleEnv emptyWorld
    constructed.1 constructed.2 rfl 2
  ⟨rfl, h.2.2.2.2.1, h.2.2.2.2.2.1, h.2.2.2.2.2.2.1⟩

/-! ## Joints -/

/-- Claim C4: `Physics::CreateJoint(type, ...)` dispatches on `type`. For each of the six named
joint types it makes exactly one native call, to the matching creation function (on the native
physics pointer and the two actor pointers), constructs exactly one wrapper, of the matching
class, around the pointer that call returned, with this `Physics` as owner, and returns it; for
every other `JointType` value it throws `ArgumentException` and leaves the world, trace of
native calls included, untouched. -/
theorem CreateJoint_dispatch (this : Physics) (type : JointType)
    (actor0 actor1 : Option Wrapper) (env : Env) (w : World) :
    match matchingJoint type with
    | some (fn, cls) =>
      (Physics.CreateJoint this type actor0 actor1 env w).value? =
        some { cls := cls, ptr := env.ret fn, owner := this.self } ∧
      (Physics.CreateJoint this type actor0 actor1 env w).world.trace =
        w.trace ++
          [Event.native fn [this._physics, GetPointerOrNull actor0, GetPointerOrNull actor1],
           Event.construct cls (env.ret fn) this.self,
           Event.objectTableAdd
             { key := env.ret fn,
               obj := .wrapper { cls := cls, ptr := env.ret fn, owner := this.self },
               owner := this.self }] ∧
      nativeCalls (Physics.CreateJoint this type actor0 actor1 env w).world.trace =
        nativeCalls w.trace ++ [fn] ∧
      constructions (Physics.CreateJoint this type actor0 actor1 env w).world.trace =
        constructions w.trace ++ [(cls, env.ret fn, this.self)]
    | none =>
      Physics.CreateJoint this type actor0 actor1 env w = .thrown .ArgumentException w := by
  cases type <;>
    simp [matchingJoint, Physics.CreateJoint, callNativeWith, recordNative, gcnew,
      ObjectTable.Add, Result.value?, Result.world, Physics.UnmanagedPointer,
      nativeCalls_append, constructions_append, nativeCalls, constructions]

/-- Claim C5: the generic `CreateJoint<T>` agrees with the enum-dispatched overload. For each of
the six concrete joint classes it yields the very result (value and world) of
`CreateJoint(typeOf(T), ...)`, that result is a returned wrapper, and the final cast to `T` does
not throw; for every other `T`, the base class `Joint` included, it throws `ArgumentException`
and leaves the world untouched. -/
theorem CreateJointGeneric_agrees (this : Physics) (T : WrapperClass)
    (actor0 actor1 : Option Wrapper) (env : Env) (w : World) :
    match typeOf T with
    | some type =>
      Physics.CreateJointGeneric this T actor0 actor1 env w =
        Physics.CreateJoint this type actor0 actor1 env w ∧
      (Physics.CreateJointGeneric this T actor0 actor1 env w).exn? = none ∧
      castTo T (Physics.CreateJoint this type actor0 actor1 env w) =
        Physics.CreateJoint this type actor0 actor1 env w
    | none =>
      Physics.CreateJointGeneric this T actor0 actor1 env w = .thrown .ArgumentException w := by
  cases T <;>
    simp [typeOf, Physics.CreateJointGeneric, Physics.CreateJoint, castTo, callNativeWith,
      gcnew, WrapperClass.isA, Result.exn?]


/-! ## Cloth fabric from a stream -/

/-- The cast to `int` keeps a value that fits. -/
theorem toInt32_of_inInt32 (x : Int) (h : InInt32 x) : toInt32 x = x := by
  unfold InInt32 at h
  unfold toInt32
  omega

/-- The cast to `int` always lands in the 32 bit range. -/
theorem inInt32_toInt32 (x : Int) : InInt32 (toInt32 x) := by
  unfold InInt32 toInt32
  omega

/-- Once the stream is readable and not of length 0, `CreateClothFabric(Stream)` throws no
argument exception: what it can still throw are the two allocation failures, the index failure
on an empty array and `FailedToCreateObjectException`. -/
theorem CreateClothFabric_past_checks (this : Physics) (s : Stream) (env : Env) (w : World)
    (hr : s.CanRead = true) (hl : s.Length ≠ 0) (e : Exn)
    (he : (Physics.CreateClothFabricFromStream this (some s) env w).exn? = some e) :
    e.isArgumentException = false := by
  unfold Physics.CreateClothFabricFromStream at he
  simp only [hr, hl, Bool.not_true, Bool.false_eq_true, if_false, beq_iff_eq] at he
  by_cases h1 : toInt32 s.Length < 0
  · simp only [h1, if_true, Result.exn?, Option.some.injEq] at he
    subst he
    rfl
  · by_cases h2 : toInt32 s.Length > maxByteArrayLength
    · simp only [h1, h2, if_true, if_false, Result.exn?, Option.some.injEq] at he
      subst he
      rfl
    · by_cases h3 : toInt32 s.Length = 0
      · simp only [h3, maxByteArrayLength, lt_self_iff_false, gt_iff_lt, if_false,
          Result.exn?] at he
        simp at he
        subst he
        rfl
      · by_cases h4 : env.ret .createClothFabricFromStream = NULL
        · simp only [h1, h2, h3, h4, if_true, if_false, callNative, callNativeWith,
            Result.exn?, Option.some.injEq] at he
          subst he
          rfl
        · simp [h1, h2, h3, h4, callNative, callNativeWith, Result.exn?] at he

/-- Claim C6, as the code has it: `Physics::CreateClothFabric(Stream)` throws an argument
exception exactly when the stream is null, or not readable, or of length 0, and then it has
neither read from the stream nor called the native SDK (the world is untouched). For every
stream that is non-null, readable and of a length between 1 and 2147483591 (the longest byte
array the runtime allocates) it reads the stream, makes exactly one native call,
`createClothFabric`, throws `FailedToCreateObjectException` exactly when that call returned
`NULL`, and otherwise returns a `ClothFabric` wrapper around the returned pointer, owned by this
`Physics`. -/
theorem CreateClothFabric_stream_checks (this : Physics) (cookedStream : Option Stream)
    (env : Env) (w : World) :
    ((∃ e, (Physics.CreateClothFabricFromStream this cookedStream env w).exn? = some e ∧
          e.isArgumentException = true) ↔
      (match cookedStream with
       | none => True
       | some s => s.CanRead = false ∨ s.Length = 0)) ∧
    ((∃ e, (Physics.CreateClothFabricFromStream this cookedStream env w).exn? = some e ∧
          e.isArgumentException = true) →
      (Physics.CreateClothFabricFromStream this cookedStream env w).world = w) ∧
    (∀ s : Stream, cookedStream = some s → s.CanRead = true → 0 < s.Length →
      s.Length ≤ maxByteArrayLength →
      (∃ rest, (Physics.CreateClothFabricFromStream this cookedStream env w).world.trace =
        w.trace ++ Event.streamRead s.Length ::
          Event.native .createClothFabricFromStream [] :: rest) ∧
      nativeCalls (Physics.CreateClothFabricFromStream this cookedStream env w).world.trace =
        nativeCalls w.trace ++ [.createClothFabricFromStream] ∧
      ((Physics.CreateClothFabricFromStream this cookedStream env w).exn? =
          some .FailedToCreateObjectException ↔
        env.ret .createClothFabricFromStream = NULL) ∧
      (env.ret .createClothFabricFromStream ≠ NULL →
        (Physics.CreateClothFabricFromStream this cookedStream env w).value? =
          some { cls := .ClothFabric, ptr := env.ret .createClothFabricFromStream,
                 owner := this.self })) := by
  cases cookedStream with
  | none =>
    refine ⟨?_, ?_, ?_⟩
    · simp [Physics.CreateClothFabricFromStream, Result.exn?, Exn.isArgumentException]
    · intro _
      simp [Physics.CreateClothFabricFromStream, Result.world]
    · intro s hs
      simp at hs
  | some s =>
    by_cases hr : s.CanRead = true
    · by_cases hl : s.Length = 0
      · refine ⟨?_, ?_, ?_⟩
        · simp [Physics.CreateClothFabricFromStream, Result.exn?, Exn.isArgumentException,
            hr, hl]
        · intro _
          simp [Physics.CreateClothFabricFromStream, Result.world, hr, hl]
        · intro s1 hs _ hpos
          simp only [Option.some.injEq] at hs
          subst hs
          omega
      · refine ⟨?_, ?_, ?_⟩
        · simp only [hr, hl, Bool.true_eq_false, or_self, iff_false, not_exists, not_and]
          intro e he
          rw [CreateClothFabric_past_checks this s env w hr hl e he]
          simp
        · rintro ⟨e, he, harg⟩
          rw [CreateClothFabric_past_checks this s env w hr hl e he] at harg
          simp at harg
        · intro s1 hs _ hpos hmax
          simp only [Option.some.injEq] at hs
          subst hs
          have hmax2 : s.Length ≤ 2147483591 := hmax
          have hcast : toInt32 s.Length = s.Length :=
            toInt32_of_inInt32 _ ⟨by omega, by omega⟩
          have hn1 : ¬ s.Length < 0 := by omega
          have hn2 : ¬ s.Length > maxByteArrayLength := by
            unfold maxByteArrayLength
            omega
          by_cases hp : env.ret .createClothFabricFromStream = NULL
          · simp [Physics.CreateClothFabricFromStream, hr, hl, hcast, hn1, hn2, hp, callNative,
              callNativeWith, recordNative, Result.world, Result.exn?, Result.value?,
              nativeCalls_append, nativeCalls]
          · simp [Physics.CreateClothFabricFromStream, hr, hl, hcast, hn1, hn2, hp, callNative,
              callNativeWith, recordNative, Result.world, Result.exn?, Result.value?,
              nativeCalls_append, nativeCalls, gcnew, ObjectTable.Add]
    · have hr2 : s.CanRead = false := by simpa using hr
      refine ⟨?_, ?_, ?_⟩
      · simp [Physics.CreateClothFabricFromStream, Result.exn?, Exn.isArgumentException, hr2]
      · intro _
        simp [Physics.CreateClothFabricFromStream, Result.world, hr2]
      · intro s1 hs hcr
        simp only [Option.some.injEq] at hs
        subst hs
        simp [hr2] at hcr

/-- A readable stream of 64 bytes: one read, one native call, and a wrapper when the native
call succeeds. -/
theorem CreateClothFabric_stream_checks_witness :
    sampleStream.CanRead = true ∧ 0 < sampleStream.Length ∧
    sampleStream.Length ≤ maxByteArrayLength ∧
    nativeCalls (Physics.CreateClothFabricFromStream samplePhysics (some sampleStream)
        sampleEnv emptyWorld).world.trace =
      nativeCalls emptyWorld.trace ++ [.createClothFabricFromStream] ∧
    ((Physics.CreateClothFabricFromStream samplePhysics (some sampleStream)
        sampleEnv emptyWorld).exn? = some .FailedToCreateObjectException ↔
      sampleEnv.ret .createClothFabricFromStream = NULL) :=
  have h := (CreateClothFabric_stream_checks samplePhysics (some sampleStream) sampleEnv
    emptyWorld).2.2 sampleStream rfl rfl (by decide) (by decide)
  ⟨rfl, by decide, by decide, h.2.1, h.2.2.1⟩

/-- A stream whose length fits an `int` but exceeds the longest byte array does not reach the
native call either: the allocation throws `OutOfMemoryException` before anything is read. -/
theorem CreateClothFabric_above_array_limit :
    maxIntStream.CanRead = true ∧ 0 < maxIntStream.Length ∧ maxIntStream.Length < 2 ^ 31 ∧
    Physics.CreateClothFabricFromStream samplePhysics (some maxIntStream) sampleEnv
      emptyWorld = .thrown .OutOfMemoryException emptyWorld := by
  refine ⟨rfl, by decide, by decide, ?_⟩
  decide

/-- Claim C6 as stated fails: a stream that is non-null, readable and of positive length 2^31
does not reach the native call. The cast of its length to `int` is negative, the array
allocation throws `OverflowException`, and nothing has been read or called. -/
theorem CreateClothFabric_huge_stream_no_native_call :
    hugeStream.CanRead = true ∧ 0 < hugeStream.Length ∧
    Physics.CreateClothFabricFromStream samplePhysics (some hugeStream) sampleEnv emptyWorld =
      .thrown .OverflowException emptyWorld ∧
    nativeCalls (Physics.CreateClothFabricFromStream samplePhysics (some hugeStream)
      sampleEnv emptyWorld).world.trace = [] := by
  refine ⟨rfl, by decide, ?_, ?_⟩ <;> decide

/-! ## Enumeration of children -/

/-- The six enumeration properties that pass `this` on return exactly the objects of the rows of
the object table that hold an object of the requested class owned by this `Physics`. -/
theorem owner_based_enumerations (this : Physics) (w : World) :
    Physics.Scenes this w = (ownedOfType .Scene this.self w).map Entry.obj ∧
    Physics.Materials this w = (ownedOfType .Material this.self w).map Entry.obj ∧
    Physics.RigidActors this w = (ownedOfType .RigidActor this.self w).map Entry.obj ∧
    Physics.ParticleSystems this w = (ownedOfType .ParticleSystem this.self w).map Entry.obj ∧
    Physics.Cloths this w = (ownedOfType .Cloth this.self w).map Entry.obj ∧
    Physics.ClothFabrics this w = (ownedOfType .ClothFabric this.self w).map Entry.obj := by
  have key : ∀ t : WrapperClass,
      ObjectTable.GetObjectsOfOwnerAndType t this.self w =
        (ownedOfType t this.self w).map Entry.obj := by
    intro t
    unfold ObjectTable.GetObjectsOfOwnerAndType ownedOfType
    congr 1
    apply List.filter_congr
    intro e _
    exact Bool.and_comm _ _
  exact ⟨key _, key _, key _, key _, key _, key _⟩

/-- Claim C7 fails for `ParticleFluids`: with one `ParticleFluid` in the object table that is
owned by the object with identity 2, the `Physics` with identity 1 returns that fluid from
`ParticleFluids`, although no row of the requested class is owned by it; the sibling
`ParticleSystems`, which passes `this` on, returns nothing there. -/
theorem ParticleFluids_ignores_owner :
    samplePhysics.self = 1 ∧
    Physics.ParticleFluids samplePhysics foreignFluidWorld =
      [.wrapper { cls := .ParticleFluid, ptr := 7000, owner := 2 }] ∧
    (ownedOfType .ParticleFluid samplePhysics.self foreignFluidWorld).map Entry.obj = [] ∧
    ObjectTable.GetObjectsOfOwnerAndType .ParticleFluid samplePhysics.self foreignFluidWorld
      = [] := by
  refine ⟨rfl, ?_, ?_, ?_⟩ <;> decide

/-! ## Null results of the native factories -/

/-- The `Create*` methods that compare the native result with `NULL`: when the native factory
returns `NULL` (and the argument checks pass) each of them throws, and no wrapper has been
constructed. -/
theorem checked_creates_throw_on_null (this : Physics) (env : Env) (w : World)
    (d : Desc) (hd : d.isValid = true) (s : Stream) (fab : Wrapper) (k : Nat)
    (hnull : ∀ fn, env.ret fn = NULL) :
    (Physics.CreateScene this (some d) env w).exn? = some .SceneCreationException ∧
    constructions (Physics.CreateScene this (some d) env w).world.trace =
      constructions w.trace ∧
    (Physics.CreateMaterial this env w).exn? = some .Exception ∧
    constructions (Physics.CreateMaterial this env w).world.trace = constructions w.trace ∧
    (Physics.CreateHeightField this (some d) env w).exn? =
      some .FailedToCreateObjectException ∧
    constructions (Physics.CreateHeightField this (some d) env w).world.trace =
      constructions w.trace ∧
    (Physics.CreateTriangleMesh this (some s) env w).exn? =
      some .FailedToCreateObjectException ∧
    constructions (Physics.CreateTriangleMesh this (some s) env w).world.trace =
      constructions w.trace ∧
    (Physics.CreateConvexMesh this (some s) env w).exn? =
      some .FailedToCreateObjectException ∧
    constructions (Physics.CreateConvexMesh this (some s) env w).world.trace =
      constructions w.trace ∧
    (Physics.CreateParticleSystem this env w).exn? = some .FailedToCreateObjectException ∧
    constructions (Physics.CreateParticleSystem this env w).world.trace =
      constructions w.trace ∧
    (Physics.CreateParticleFluid this env w).exn? = some .FailedToCreateObjectException ∧
    constructions (Physics.CreateParticleFluid this env w).world.trace =
      constructions w.trace ∧
    (Physics.CreateCloth this (some fab) (some k) env w).exn? =
      some .FailedToCreateObjectException ∧
    constructions (Physics.CreateCloth this (some fab) (some k) env w).world.trace =
      constructions w.trace := by
  simp [Physics.CreateScene, Physics.CreateMaterial, Physics.CreateHeightField,
    Physics.CreateTriangleMesh, Physics.CreateConvexMesh, Physics.CreateParticleSystem,
    Physics.CreateParticleFluid, Physics.CreateCloth, ThrowIfDescriptionIsNullOrInvalid,
    Util.StreamToUnmanagedInputStream, hd, hnull, callNative, callNativeWith, recordNative,
    Result.exn?, Result.world, constructions_append, constructions]

/-! ## Registration in the object table -/

/-- The material loop of `PostInit` only appends: rows owned by the `Physics` to the table,
events to the trace. -/
theorem populateMaterials_appends (self : ObjId) (env : Env) (ms : List Ptr) (w : World) :
    ∃ rest tail,
      (Physics.populateMaterials self env ms w).table = w.table ++ rest ∧
      (∀ e ∈ rest, e.owner = self) ∧
      (Physics.populateMaterials self env ms w).trace = w.trace ++ tail := by
  induction ms generalizing w with
  | nil =>
    exact ⟨[], [Event.native .getNbMaterials []], by
      simp [Physics.populateMaterials, callNative, callNativeWith, recordNative]⟩
  | cons m rest ih =>
    obtain ⟨r, t, h1, h2, h3⟩ := ih
      (gcnew .Material m self (callNative env .getNbMaterials w).2).2
    refine ⟨{ key := m, obj := .wrapper { cls := .Material, ptr := m, owner := self },
              owner := self } :: r, ?_, ?_, ?_, ?_⟩
    · exact [Event.native .getNbMaterials [], Event.construct .Material m self,
        Event.objectTableAdd
          { key := m, obj := .wrapper { cls := .Material, ptr := m, owner := self },
            owner := self }] ++ t
    · simp only [Physics.populateMaterials]
      rw [h1]
      simp [gcnew, ObjectTable.Add, callNative, callNativeWith, recordNative]
    · intro e he
      rcases List.mem_cons.mp he with he | he
      · subst he
        rfl
      · exact h2 e he
    · simp only [Physics.populateMaterials]
      rw [h3]
      simp [gcnew, ObjectTable.Add, callNative, callNativeWith, recordNative]

/-- With a live owner, the first thing `PostInit` does is to add the row of the `Physics` to the
object table; whatever follows, also when a later step throws, only appends rows owned by the
`Physics` and further events. -/
theorem PostInit_adds_first (p : Physics) (o : Foundation) (env : Env) (w : World)
    (ho : o.Disposed = false) :
    ∃ rest tail,
      (Physics.PostInit p (some o) env w).world.table =
        w.table ++ { key := p._physics, obj := .physics p.self, owner := o.self } :: rest ∧
      (∀ e ∈ rest, e.owner = p.self) ∧
      (Physics.PostInit p (some o) env w).world.trace =
        w.trace ++ Event.objectTableAdd
          { key := p._physics, obj := .physics p.self, owner := o.self } :: tail := by
  cases hx : env.initExtensionsOk with
  | false =>
    exact ⟨[], [Event.native .PxInitExtensions []], by
      simp [Physics.PostInit, ho, hx, Result.world, ObjectTable.Add, callNative,
        callNativeWith, recordNative]⟩
  | true =>
    by_cases hc : env.ret .getPvdConnectionManager = NULL
    · obtain ⟨r, t, h1, h2, h3⟩ := populateMaterials_appends p.self env env.materials
        (callNative env .getMaterials (callNative env .getNbMaterials
          (callNative env .getNbMaterials (callNative env .getPvdConnectionManager
            { (callNative env .PxInitExtensions (ObjectTable.Add p._physics
                (.physics p.self) o.self w)).2 with
              trace := (callNative env .PxInitExtensions (ObjectTable.Add p._physics
                (.physics p.self) o.self w)).2.trace ++
                  [Event.construct .VehicleSDK NULL p.self] }).2).2).2).2
      refine ⟨r, ?_, ?_, h2, ?_⟩
      · exact [Event.native .PxInitExtensions [], Event.construct .VehicleSDK NULL p.self,
          Event.native .getPvdConnectionManager [], Event.native .getNbMaterials [],
          Event.native .getNbMaterials [], Event.native .getMaterials []] ++ t
      · simp only [Physics.PostInit, ho, hx, Result.world, callNative, callNativeWith, hc]
        simp only [callNative, callNativeWith] at h1
        simp only [Bool.false_eq_true, if_false, Bool.not_true, bne_self_eq_false]
        rw [h1]
        simp [ObjectTable.Add, recordNative]
      · simp only [Physics.PostInit, ho, hx, Result.world, callNative, callNativeWith, hc]
        simp only [callNative, callNativeWith] at h3
        simp only [Bool.false_eq_true, if_false, Bool.not_true, bne_self_eq_false]
        rw [h3]
        simp [ObjectTable.Add, recordNative]
    · obtain ⟨r, t, h1, h2, h3⟩ := populateMaterials_appends p.self env env.materials
        (callNative env .getMaterials (callNative env .getNbMaterials
          (callNative env .getNbMaterials (gcnew .ConnectionManager
            (env.ret .getPvdConnectionManager) p.self
            (callNative env .getPvdConnectionManager
            { (callNative env .PxInitExtensions (ObjectTable.Add p._physics
                (.physics p.self) o.self w)).2 with
              trace := (callNative env .PxInitExtensions (ObjectTable.Add p._physics
                (.physics p.self) o.self w)).2.trace ++
                  [Event.construct .VehicleSDK NULL p.self] }).2).2).2).2).2
      have hc2 : (env.ret .getPvdConnectionManager != NULL) = true := by
        simpa using hc
      refine ⟨{ key := env.ret .getPvdConnectionManager,
                obj := .wrapper { cls := .ConnectionManager,
                                  ptr := env.ret .getPvdConnectionManager, owner := p.self },
                owner := p.self } :: r, ?_, ?_, ?_, ?_⟩
      · exact [Event.native .PxInitExtensions [], Event.construct .VehicleSDK NULL p.self,
          Event.native .getPvdConnectionManager [],
          Event.construct .ConnectionManager (env.ret .getPvdConnectionManager) p.self,
          Event.objectTableAdd
            { key := env.ret .getPvdConnectionManager,
              obj := .wrapper { cls := .ConnectionManager,
                                ptr := env.ret .getPvdConnectionManager, owner := p.self },
              owner := p.self },
          Event.native .getNbMaterials [],
          Event.native .getNbMaterials [], Event.native .getMaterials []] ++ t
      · simp only [Physics.PostInit, ho, hx, Result.world, callNative, callNativeWith, hc2]
        simp only [callNative, callNativeWith] at h1
        simp only [Bool.false_eq_true, if_false, Bool.not_true, if_true]
        rw [h1]
        simp [ObjectTable.Add, recordNative, gcnew]
      · intro e he
        rcases List.mem_cons.mp he with he | he
        · subst he
          rfl
        · exact h2 e he
      · simp only [Physics.PostInit, ho, hx, Result.world, callNative, callNativeWith, hc2]
        simp only [callNative, callNativeWith] at h3
        simp only [Bool.false_eq_true, if_false, Bool.not_true, if_true]
        rw [h3]
        simp [ObjectTable.Add, recordNative, gcnew]


/-- A successful construction ends in a successful `PostInit`, run on the object that holds the
pointer returned by `PxCreatePhysics`, after `Init` has set the flag. -/
theorem ctor_ok_postInit (self : ObjId) (f : Foundation) (checkRuntimeFiles : Bool)
    (env : Env) (w0 : World) (this : Physics) (w : World)
    (h : Physics.ctor self (some f) checkRuntimeFiles env w0 = .ok this w) :
    Physics.PostInit
      { self := self, _physics := env.ret .PxCreatePhysics, _foundation := f,
        _vehicleSDK := none, _connectionManager := none }
      (some f) env
      (recordNative .PxCreatePhysics [] { w0 with _instantiated := true }) = .ok this w ∧
    f.Disposed = false := by
  unfold Physics.ctor at h
  simp only at h
  split at h
  · simp at h
  · cases hi : w0._instantiated with
    | true => simp [Physics.Init, hi] at h
    | false =>
      by_cases hp : env.ret .PxCreatePhysics = NULL
      · simp [Physics.Init, hi, callNative, callNativeWith, hp] at h
      · simp only [Physics.Init, hi, callNative, callNativeWith, beq_iff_eq, hp,
          Bool.false_eq_true, if_false] at h
        refine ⟨h, ?_⟩
        cases hd : f.Disposed with
        | false => rfl
        | true => simp [Physics.PostInit, hd] at h

/-- Claim C8: after a successful construction of a `Physics` from a foundation, the object table
holds the row that maps the native `PxPhysics` pointer to this `Physics` with the foundation as
owner (and a lookup by that pointer finds this row when the pointer was not in the table
before); everything added after it is owned by the `Physics`. `PostInit` throws and leaves table
and trace untouched when the owner is null or disposed; with a live owner, adding the row is the
first thing `PostInit` does, before any wrapper is constructed with this `Physics` as owner. -/
theorem ctor_registers_physics (self : ObjId) (f : Foundation) (checkRuntimeFiles : Bool)
    (env : Env) (w0 : World) (this : Physics) (w : World)
    (h : Physics.ctor self (some f) checkRuntimeFiles env w0 = .ok this w) :
    this._physics = env.ret .PxCreatePhysics ∧ this._physics ≠ NULL ∧ this.self = self ∧
    (∃ rest, w.table = w0.table ++
        { key := this._physics, obj := .physics self, owner := f.self } :: rest ∧
      ∀ e ∈ rest, e.owner = self) ∧
    ((∀ e ∈ w0.table, e.key ≠ this._physics) →
      w.table.find? (fun e => e.key == this._physics) =
        some { key := this._physics, obj := .physics self, owner := f.self }) ∧
    (∃ tail, w.trace = w0.trace ++ Event.native .PxCreatePhysics [] ::
      Event.objectTableAdd { key := this._physics, obj := .physics self, owner := f.self } ::
        tail) ∧
    (∀ (p : Physics) (owner : Option Foundation) (e1 : Env) (w1 : World),
      (owner = none ∨ ∃ o, owner = some o ∧ o.Disposed = true) →
      (Physics.PostInit p owner e1 w1).exn? ≠ none ∧
      (Physics.PostInit p owner e1 w1).world = w1) ∧
    (∀ (p : Physics) (o : Foundation) (e1 : Env) (w1 : World), o.Disposed = false →
      ∃ rest tail,
        (Physics.PostInit p (some o) e1 w1).world.table =
          w1.table ++ { key := p._physics, obj := .physics p.self, owner := o.self } :: rest ∧
        (∀ e ∈ rest, e.owner = p.self) ∧
        (Physics.PostInit p (some o) e1 w1).world.trace =
          w1.trace ++ Event.objectTableAdd
            { key := p._physics, obj := .physics p.self, owner := o.self } :: tail) := by
  obtain ⟨hptr, hne, hself, -, -⟩ := ctor_ok_fields _ _ _ _ _ _ _ h
  obtain ⟨hpost, hlive⟩ := ctor_ok_postInit _ _ _ _ _ _ _ h
  obtain ⟨rest, tail, ht, hown, htr⟩ := PostInit_adds_first
    { self := self, _physics := env.ret .PxCreatePhysics, _foundation := f,
      _vehicleSDK := none, _connectionManager := none } f env
    (recordNative .PxCreatePhysics [] { w0 with _instantiated := true }) hlive
  rw [hpost] at ht htr
  simp only [Result.world, recordNative] at ht htr
  rw [← hptr] at ht htr
  refine ⟨hptr, hne, hself, ⟨rest, ht, hown⟩, ?_, ⟨tail, ?_⟩, ?_, ?_⟩
  · intro hfresh
    rw [ht, List.find?_append]
    have hnone : List.find? (fun e => e.key == this._physics) w0.table = none := by
      rw [List.find?_eq_none]
      intro e he
      simpa using hfresh e he
    rw [hnone]
    simp
  · rw [htr]
    simp
  · intro p owner e1 w1 hbad
    rcases hbad with hnone | ⟨o, hsome, hdis⟩
    · subst hnone
      simp [Physics.PostInit, Result.exn?, Result.world]
    · subst hsome
      simp [Physics.PostInit, Result.exn?, Result.world, hdis]
  · intro p o e1 w1 ho
    exact PostInit_adds_first p o e1 w1 ho

/-- The construction on the sample input: the row of the `Physics` is in the table, first among
the rows the construction added. -/
theorem ctor_registers_physics_witness :
    Physics.ctor 1 (some sampleFoundation) false sampleEnv emptyWorld =
      .ok constructed.1 constructed.2 ∧
    constructed.1._physics = sampleEnv.ret .PxCreatePhysics ∧
    constructed.2.table.find? (fun e => e.key == constructed.1._physics) =
      some { key := constructed.1._physics, obj := .physics 1,
             owner := sampleFoundation.self } :=
  have h := ctor_registers_physics 1 sampleFoundation false sampleEnv emptyWorld
    constructed.1 constructed.2 rfl
  ⟨rfl, h.1, h.2.2.2.2.1 (by decide)⟩


/-! ## Enum mirrors -/

/-- Claim C9: each managed enumerator of `CombineMode`, `DataAccessFlag`, `ErrorCode` and
`PairFlag` has the numeric value of the native enumerator it is defined from; a managed enum
value cast to the native enum type and back is unchanged; and a native enumerator with a managed
mirror cast to the managed type and back is unchanged. -/
theorem enum_mirrors_roundtrip (nv : NativeEnumValues) (hnv : nv.WellFormed) :
    (∀ e : CombineMode, e.value nv = nv.combineMode e.definedFrom) ∧
    (∀ e : DataAccessFlag, e.value nv = nv.dataAccessFlag e.definedFrom) ∧
    (∀ e : ErrorCode, e.value nv = nv.errorCode e.definedFrom) ∧
    (∀ e : PairFlag, e.value nv = nv.pairFlag e.definedFrom) ∧
    (∀ v : Int, InInt32 v → castToManagedEnum (castToNativeEnum v) = v) ∧
    (∀ e : CombineMode, castToManagedEnum (castToNativeEnum (e.value nv)) = e.value nv) ∧
    (∀ e : DataAccessFlag, castToManagedEnum (castToNativeEnum (e.value nv)) = e.value nv) ∧
    (∀ e : ErrorCode, castToManagedEnum (castToNativeEnum (e.value nv)) = e.value nv) ∧
    (∀ e : PairFlag, castToManagedEnum (castToNativeEnum (e.value nv)) = e.value nv) ∧
    (∀ e : CombineMode, castToNativeEnum (castToManagedEnum (nv.combineMode e.definedFrom)) =
      nv.combineMode e.definedFrom) ∧
    (∀ e : DataAccessFlag,
      castToNativeEnum (castToManagedEnum (nv.dataAccessFlag e.definedFrom)) =
        nv.dataAccessFlag e.definedFrom) ∧
    (∀ e : ErrorCode, castToNativeEnum (castToManagedEnum (nv.errorCode e.definedFrom)) =
      nv.errorCode e.definedFrom) ∧
    (∀ e : PairFlag, castToNativeEnum (castToManagedEnum (nv.pairFlag e.definedFrom)) =
      nv.pairFlag e.definedFrom) := by
  obtain ⟨h1, h2, h3, h4⟩ := hnv
  have rt : ∀ v : Int, InInt32 v → toInt32 (toInt32 v) = v := by
    intro v hv
    rw [toInt32_of_inInt32 v hv, toInt32_of_inInt32 v hv]
  have idem : ∀ v : Int, toInt32 (toInt32 (toInt32 v)) = toInt32 v := by
    intro v
    exact rt _ (inInt32_toInt32 v)
  refine ⟨?_, ?_, ?_, ?_, ?_, ?_, ?_, ?_, ?_, ?_, ?_, ?_, ?_⟩
  · intro e; exact toInt32_of_inInt32 _ (h1 _)
  · intro e; exact toInt32_of_inInt32 _ (h2 _)
  · intro e; exact toInt32_of_inInt32 _ (h3 _)
  · intro e; exact toInt32_of_inInt32 _ (h4 _)
  · intro v hv; exact rt v hv
  · intro e; exact idem _
  · intro e; exact idem _
  · intro e; exact idem _
  · intro e; exact idem _
  · intro e; exact rt _ (h1 _)
  · intro e; exact rt _ (h2 _)
  · intro e; exact rt _ (h3 _)
  · intro e; exact rt _ (h4 _)

/-- The sample table of native values is well formed, and `PairFlag.ContactDefault` mirrors its
native enumerator there. -/
theorem enum_mirrors_roundtrip_witness :
    sampleNativeEnumValues.WellFormed ∧
    PairFlag.ContactDefault.value sampleNativeEnumValues =
      sampleNativeEnumValues.pairFlag .eCONTACT_DEFAULT ∧
    castToManagedEnum (castToNativeEnum (PairFlag.ContactDefault.value
      sampleNativeEnumValues)) = PairFlag.ContactDefault.value sampleNativeEnumValues :=
  have hwf : sampleNativeEnumValues.WellFormed :=
    ⟨fun n => by cases n <;> decide, fun n => by cases n <;> decide,
     fun n => by cases n <;> decide, fun n => by cases n <;> decide⟩
  have h := enum_mirrors_roundtrip sampleNativeEnumValues hwf
  ⟨hwf, h.2.2.2.1 .ContactDefault, h.2.2.2.2.2.2.2.2.1 .ContactDefault⟩

end PhysX
